import Mathlib

/-!
Verification of the CryptoInheritance repository: a shallow embedding of the
on-chain `CryptoInheritance` contract (Solidity, embedded alongside the Jest
setup in `src/backend/test/setup.js`), of the ERC20 token semantics used by
`MockERC20` (OpenZeppelin `ERC20`), and of the backend trigger pipeline
(`src/backend/server.js`, `src/backend/services/contractService.js`).

Addresses are modelled as natural numbers with `0` standing for the Solidity
zero address (the sentinel). Token amounts are natural numbers. Reverting
operations return `Except`: an `.error` result models a full EVM revert, so
no state change survives a failed call by construction, matching Solidity's
transactional semantics.
-/

/-!
Backend embedding: the webhook intake of `src/backend/server.js`, the
delayed-execution pipeline of
`src/backend/services/contractService.js :: triggerInheritance`, and the
status broadcast assembled in the `setTimeout` callback of `server.js`.
-/

/-!
Concrete fixtures used by witnesses and counterexamples.
-/

/-- Ethereum addresses, with `0` the zero-address sentinel. -/
abbrev Addr := Nat

/-- ERC20 token state: balances and allowances (`allowance holder spender`).
Mirrors the storage of OpenZeppelin `ERC20`, which `MockERC20` inherits. -/
structure TokenState where
  balanceOf : Addr → Nat
  allowance : Addr → Addr → Nat

/-- State variables of the `CryptoInheritance` contract, together with the
`owner` inherited from `Ownable` and `paused` inherited from `Pausable`. -/
structure ContractState where
  owner : Addr
  inheritor : Addr
  isTriggered : Bool
  paused : Bool
deriving DecidableEq

/-- Revert reasons of the contract and of its OpenZeppelin base contracts. -/
inductive CError where
  /-- `OwnableUnauthorizedAccount` from `Ownable.onlyOwner`. -/
  | ownableUnauthorized
  /-- `EnforcedPause` from `Pausable.whenNotPaused`. -/
  | enforcedPause
  /-- `ExpectedPause` from `Pausable.whenPaused` (inside `_unpause`). -/
  | expectedPause
  /-- `require(!isTriggered, "Inheritance already triggered")`. -/
  | alreadyTriggered
  /-- `require(_inheritor != address(0), "Inheritor cannot be zero address")`. -/
  | zeroInheritor
  /-- `require(inheritor != address(0), "No inheritor nominated")`. -/
  | noInheritor
  /-- `require(balance > 0, "No tokens to transfer")`. -/
  | noTokens
  /-- token movement rejected (`"Token transfer failed"` / ERC20 revert). -/
  | transferFailed
deriving DecidableEq

/-- Error projection of a contract call result. -/
def resErr {α : Type} : Except CError α → Option CError
  | .error e => some e
  | .ok _ => none

/-- Success projection of a contract call result. -/
def resOk {α : Type} : Except CError α → Option α
  | .error _ => none
  | .ok a => some a

/-- OpenZeppelin `ERC20.transferFrom` as called by the contract: the spender
must have `allowance src spender ≥ amount` (which is spent) and `src` must
hold `amount`; the balance update subtracts from `src` then adds to `dst`,
so a self-transfer nets to zero. `none` models the ERC20 revert. -/
def transferFrom (spender src dst : Addr) (amount : Nat) (t : TokenState) :
    Option TokenState :=
  if t.allowance src spender < amount then none
  else if t.balanceOf src < amount then none
  else
    let al' : Addr → Addr → Nat := fun a b =>
      if a = src ∧ b = spender then t.allowance src spender - amount
      else t.allowance a b
    let b1 : Addr → Nat := fun a =>
      if a = src then t.balanceOf src - amount else t.balanceOf a
    let b2 : Addr → Nat := fun a =>
      if a = dst then b1 dst + amount else b1 a
    some { balanceOf := b2, allowance := al' }

/-- OpenZeppelin `ERC20.approve`: sets `allowance holder spender` to `amount`. -/
def erc20approve (holder spender : Addr) (amount : Nat) (t : TokenState) :
    TokenState :=
  { t with allowance := fun a b =>
      if a = holder ∧ b = spender then amount else t.allowance a b }

/-- `CryptoInheritance.nominateInheritor`: `whenNotPaused`, rejects the zero
address, overwrites the inheritor. The source has no `onlyOwner` modifier on
this function, so `sender` is unchecked. -/
def nominateInheritor (sender inh : Addr) (cs : ContractState) :
    Except CError ContractState :=
  if cs.paused then .error .enforcedPause
  else if inh = 0 then .error .zeroInheritor
  else .ok { cs with inheritor := inh }

/-- `CryptoInheritance.cancelNomination`: `whenNotPaused`, resets the
inheritor to the zero address. No `onlyOwner` and no `notTriggered` check in
the source. -/
def cancelNomination (sender : Addr) (cs : ContractState) :
    Except CError ContractState :=
  if cs.paused then .error .enforcedPause
  else .ok { cs with inheritor := 0 }

/-- `CryptoInheritance.triggerInheritance`, with `cA` the address of the
inheritance contract itself (the `transferFrom` spender). Modifier order as
in the source: `whenNotPaused` then `notTriggered`; then the inheritor,
balance and transfer checks. No `onlyOwner` in the source. -/
def triggerInheritance (cA sender : Addr) (cs : ContractState)
    (t : TokenState) : Except CError (ContractState × TokenState) :=
  if cs.paused then .error .enforcedPause
  else if cs.isTriggered then .error .alreadyTriggered
  else if cs.inheritor = 0 then .error .noInheritor
  else if t.balanceOf sender = 0 then .error .noTokens
  else
    match transferFrom cA sender cs.inheritor (t.balanceOf sender) t with
    | none => .error .transferFailed
    | some t' => .ok ({ cs with isTriggered := true }, t')

/-- `CryptoInheritance.pause`: `onlyOwner`, then `_pause` (which requires the
contract to be unpaused). -/
def pause (sender : Addr) (cs : ContractState) : Except CError ContractState :=
  if sender ≠ cs.owner then .error .ownableUnauthorized
  else if cs.paused then .error .enforcedPause
  else .ok { cs with paused := true }

/-- `CryptoInheritance.unpause`: `onlyOwner`, then `_unpause` (which requires
the contract to be paused). -/
def unpause (sender : Addr) (cs : ContractState) :
    Except CError ContractState :=
  if sender ≠ cs.owner then .error .ownableUnauthorized
  else if cs.paused then .ok { cs with paused := false }
  else .error .expectedPause

/-- Combined on-chain state: the inheritance contract plus the one token. -/
structure ChainState where
  cs : ContractState
  tok : TokenState

/-- Transactions that can touch the chain state. -/
inductive Op where
  | nominate (sender inh : Addr)
  | cancel (sender : Addr)
  | trigger (sender : Addr)
  | doPause (sender : Addr)
  | doUnpause (sender : Addr)
  | approve (holder spender : Addr) (amount : Nat)

/-- Transaction semantics: a reverted call leaves the chain state unchanged
(EVM atomicity); a successful call commits its updates. -/
def execOp (cA : Addr) (o : Op) (s : ChainState) : ChainState :=
  match o with
  | .nominate sender inh =>
    match nominateInheritor sender inh s.cs with
    | .ok cs' => ⟨cs', s.tok⟩
    | .error _ => s
  | .cancel sender =>
    match cancelNomination sender s.cs with
    | .ok cs' => ⟨cs', s.tok⟩
    | .error _ => s
  | .trigger sender =>
    match triggerInheritance cA sender s.cs s.tok with
    | .ok p => ⟨p.1, p.2⟩
    | .error _ => s
  | .doPause sender =>
    match pause sender s.cs with
    | .ok cs' => ⟨cs', s.tok⟩
    | .error _ => s
  | .doUnpause sender =>
    match unpause sender s.cs with
    | .ok cs' => ⟨cs', s.tok⟩
    | .error _ => s
  | .approve holder spender amount => ⟨s.cs, erc20approve holder spender amount s.tok⟩

/-- Running a sequence of transactions. -/
def execOps (cA : Addr) (l : List Op) (s : ChainState) : ChainState :=
  l.foldl (fun s o => execOp cA o s) s

/-- Hexadecimal digit test matching the character class `[a-fA-F0-9]`. -/
def isHexDigitChar (c : Char) : Bool :=
  (48 ≤ c.toNat && c.toNat ≤ 57) ||
  (97 ≤ c.toNat && c.toNat ≤ 102) ||
  (65 ≤ c.toNat && c.toNat ≤ 70)

/-- `isValidEthereumAddress` from `server.js`: the regex
`^0x[a-fA-F0-9]{40}$`, i.e. `0x` followed by exactly 40 hex digits of either
case. -/
def isValidEthereumAddress (s : String) : Bool :=
  let cs := s.toList
  (cs.length == 42) && (cs.take 2 == ['0', 'x']) &&
    (cs.drop 2).all isHexDigitChar

/-- The `processingStatus` JavaScript `Map`, keyed by the exact request
string; lookups see the most recent `set`. -/
abbrev StatusMap := List (String × String)

/-- `Map.get`: the most recently set value for the key, if any. -/
def mapGet (m : StatusMap) (k : String) : Option String :=
  match m with
  | [] => none
  | (k', v) :: rest => if k' = k then some v else mapGet rest k

/-- `Map.set`: later entries shadow earlier ones under `mapGet`. -/
def mapSet (m : StatusMap) (k v : String) : StatusMap :=
  (k, v) :: m

/-- Body of a `POST /webhook/death-notification` request; `none` models an
absent JSON field. -/
structure WebhookReq where
  walletAddress : Option String
  eventType : Option String
deriving DecidableEq

/-- JavaScript truthiness of a possibly-absent string field: absent and the
empty string are falsy. -/
def strPresent : Option String → Bool
  | none => false
  | some s => !(s == "")

/-- The relevant part of an HTTP response from the webhook handler. -/
structure HttpResp where
  code : Nat
  success : Bool
  err : Option String
  processingDelay : Option Nat
deriving DecidableEq

/-- The webhook handler of `server.js` (`POST /webhook/death-notification`):
field presence checks, address format check, the `processing` dedup guard,
then acceptance (status map set to `processing`, 200 ack carrying the 6000 ms
delay, a delayed execution scheduled — the returned `Bool`). -/
def deathWebhook (m : StatusMap) (r : WebhookReq) : HttpResp × StatusMap × Bool :=
  if strPresent r.walletAddress = false then
    (⟨400, false, some "Missing required field: walletAddress", none⟩, m, false)
  else if strPresent r.eventType = false then
    (⟨400, false, some "Missing required field: eventType", none⟩, m, false)
  else if isValidEthereumAddress (r.walletAddress.getD "") = false then
    (⟨400, false, some "Invalid wallet address format", none⟩, m, false)
  else if mapGet m (r.walletAddress.getD "") = some "processing" then
    (⟨409, false, some "Death notification already being processed for this wallet", none⟩,
      m, false)
  else
    (⟨200, true, none, some 6000⟩,
      mapSet m (r.walletAddress.getD "") "processing", true)

/-- Deployed `MockERC20` address, from `contractAddresses` in
`contractService.js`. -/
def mockTokenAddress : String := "0xe7f1725E7734CE288F8367e1Bb143E90bb3F0512"

/-- Chain responses observed by one run of
`contractService.triggerInheritance`, in the order the code reads them:
`allowance1` is the first allowance read, `allowance2` the fresh re-read
performed after an approval was submitted and awaited. -/
structure PipeEnv where
  validAddr : Bool
  getInheritorOk : Bool
  inheritor : Addr
  balance : Nat
  canSign : Bool
  allowance1 : Nat
  approveOk : Bool
  allowance2 : Nat
  triggerOk : Bool
  txHash : String
deriving DecidableEq

/-- Result object of `contractService.triggerInheritance`, extended with a
transcript of the side effects the run performed (whether an approval was
submitted and for how much, and whether the on-chain `triggerInheritance`
call was made). -/
structure PipeResult where
  success : Bool
  error : Option String
  nomineeAddress : Option Addr
  transactionHash : Option String
  tokenAddress : Option String
  approvalSubmitted : Bool
  approvalAmount : Nat
  triggerInvoked : Bool
deriving DecidableEq

/-- Final contract call of the pipeline (the `try` block around
`inheritanceAsDeceased.triggerInheritance(...)` in `contractService.js`),
parameterised by whether an approval was submitted earlier in the run. -/
def pipeFinalCall (env : PipeEnv) (approved : Bool) : PipeResult :=
  if env.triggerOk then
    { success := true, error := none, nomineeAddress := some env.inheritor,
      transactionHash := some env.txHash, tokenAddress := some mockTokenAddress,
      approvalSubmitted := approved,
      approvalAmount := if approved then env.balance else 0,
      triggerInvoked := true }
  else
    { success := false, error := some "Failed to trigger inheritance",
      nomineeAddress := some env.inheritor, transactionHash := none,
      tokenAddress := none, approvalSubmitted := approved,
      approvalAmount := if approved then env.balance else 0,
      triggerInvoked := true }

/-- `contractService.triggerInheritance` (the delayed execution body):
address check, inheritor read and zero check, balance check, signing
authority lookup, then the allowance bridge — read the allowance, if below
the balance submit an approval for the full balance, wait, re-read the
allowance fresh, and fail without calling the contract if still
insufficient — and finally the on-chain trigger call. -/
def pipelineTriggerInheritance (env : PipeEnv) : PipeResult :=
  if env.validAddr = false then
    { success := false, error := some "Invalid wallet address",
      nomineeAddress := none, transactionHash := none, tokenAddress := none,
      approvalSubmitted := false, approvalAmount := 0, triggerInvoked := false }
  else if env.getInheritorOk = false then
    { success := false, error := some "No inheritor nominated for this wallet",
      nomineeAddress := none, transactionHash := none, tokenAddress := none,
      approvalSubmitted := false, approvalAmount := 0, triggerInvoked := false }
  else if env.inheritor = 0 then
    { success := false, error := some "No inheritor nominated for this wallet",
      nomineeAddress := none, transactionHash := none, tokenAddress := none,
      approvalSubmitted := false, approvalAmount := 0, triggerInvoked := false }
  else if env.balance = 0 then
    { success := false, error := some "No tokens to transfer for this wallet",
      nomineeAddress := none, transactionHash := none, tokenAddress := none,
      approvalSubmitted := false, approvalAmount := 0, triggerInvoked := false }
  else if env.canSign = false then
    { success := false,
      error := some "Backend does not have signing authority for this wallet. Only local test accounts are supported.",
      nomineeAddress := none, transactionHash := none, tokenAddress := none,
      approvalSubmitted := false, approvalAmount := 0, triggerInvoked := false }
  else if env.allowance1 < env.balance then
    if env.approveOk = false then
      { success := false, error := some "Failed to approve tokens",
        nomineeAddress := none, transactionHash := none, tokenAddress := none,
        approvalSubmitted := true, approvalAmount := env.balance,
        triggerInvoked := false }
    else if env.allowance2 < env.balance then
      { success := false,
        error := some "Allowance is still insufficient after approval attempt.",
        nomineeAddress := none, transactionHash := none, tokenAddress := none,
        approvalSubmitted := true, approvalAmount := env.balance,
        triggerInvoked := false }
    else pipeFinalCall env true
  else pipeFinalCall env false

/-- A `statusUpdate` broadcast as assembled by `server.js` and emitted by
`websocketService.broadcastStatus`: `keys` lists the field names present in
the emitted JSON object. -/
structure StatusBroadcast where
  keys : List String
  status : String
  message : String
  transactionHash : Option String
  nomineeAddress : Option Addr
  errorField : Option String
deriving DecidableEq

/-- The `setTimeout` callback of the webhook handler, after
`contractService.triggerInheritance` returned `r`: on success the status map
entry becomes `completed` and the broadcast carries the transaction hash and
nominee address; on failure it becomes `failed` with the error and nominee. -/
def onTriggerOutcome (m : StatusMap) (addr : String) (r : PipeResult) :
    StatusMap × StatusBroadcast :=
  if r.success then
    (mapSet m addr "completed",
      { keys := ["walletAddress", "status", "message", "transactionHash",
          "nomineeAddress", "timestamp"],
        status := "completed",
        message := "Transfer complete - tokens sent to the nominee",
        transactionHash := r.transactionHash,
        nomineeAddress := r.nomineeAddress, errorField := none })
  else
    (mapSet m addr "failed",
      { keys := ["walletAddress", "status", "message", "error",
          "nomineeAddress", "timestamp"],
        status := "failed", message := "Inheritance transfer failed",
        transactionHash := none, nomineeAddress := r.nomineeAddress,
        errorField := r.error })

/-- Freshly deployed contract: owner is account `1`, no inheritor, not
triggered, not paused. -/
def csFresh : ContractState := ⟨1, 0, false, false⟩

/-- Fresh contract after account `3` was nominated. -/
def csNominated : ContractState := ⟨1, 3, false, false⟩

/-- Token state where the non-owner account `2` holds 5 tokens and has
approved the contract at address `100` for 5. -/
def tokAcct2 : TokenState :=
  ⟨fun a => if a = 2 then 5 else 0,
   fun a b => if a = 2 ∧ b = 100 then 5 else 0⟩

/-- Already-triggered contract whose nomination was cancelled afterwards. -/
def csTriggeredNoNominee : ContractState := ⟨1, 0, true, false⟩

/-- Well-formed address written with upper-case hex letters. -/
def addrUpper : String := "0xAAAAAAAAAAAAAAAAAAAAAAAAAAAAAAAAAAAAAAAA"

/-- The same wallet's address written with lower-case hex letters. -/
def addrLower : String := "0xaaaaaaaaaaaaaaaaaaaaaaaaaaaaaaaaaaaaaaaa"

/-- Notification request for the upper-case spelling. -/
def reqUpper : WebhookReq := ⟨some addrUpper, some "death-notification"⟩

/-- Notification request for the lower-case spelling. -/
def reqLower : WebhookReq := ⟨some addrLower, some "death-notification"⟩

/-- Status map after the upper-case notification was accepted. -/
def mapAfterUpper : StatusMap := (deathWebhook [] reqUpper).2.1

/-- Map with an unrelated completed entry, so the tested address is not
`processing` initially. -/
def mapOther : StatusMap := [(addrLower, "completed")]

/-- Paused contract with no nominee whose would-be caller is fully funded. -/
def csPausedNoNominee : ContractState := ⟨1, 0, false, true⟩

/-- Token state where account `1` holds 7 tokens and has approved the
contract at address `100` for 9. -/
def tokAcct1 : TokenState :=
  ⟨fun a => if a = 1 then 7 else 0,
   fun a b => if a = 1 ∧ b = 100 then 9 else 0⟩

/-- Unpaused, untriggered contract with no nominee. -/
def csNoNominee : ContractState := ⟨1, 0, false, false⟩

/-- Chain state for the C7 witness: nominated, unpaused contract with the
caller funded. -/
def chainNominated : ChainState := ⟨csNominated, tokAcct2⟩

/-- Paused variant of `csNominated`. -/
def csNominatedPaused : ContractState := ⟨1, 3, false, true⟩

/-- Paused chain state for the C7 witness. -/
def chainNominatedPaused : ChainState := ⟨csNominatedPaused, tokAcct2⟩

/-- Contract whose nominee is the caller itself (self-nomination is not
blocked on-chain). -/
def csSelfNominee : ContractState := ⟨1, 2, false, false⟩

/-- Triggered, unpaused, still-nominated contract. -/
def csTriggeredNominated : ContractState := ⟨1, 3, true, false⟩

/-- Chain state for the C3 witness. -/
def chainTriggered : ChainState := ⟨csTriggeredNominated, tokAcct2⟩

/-- Triggered contract that was paused afterwards. -/
def csTriggeredPaused : ContractState := ⟨1, 3, true, true⟩

/-- Environment where the first allowance read is short, the approval goes
through, but the re-read allowance is still short. -/
def envStillShort : PipeEnv := ⟨true, true, 3, 5, true, 2, true, 4, true, "0xdead"⟩

/-- Environment for a fully successful cycle: the allowance already covers
the balance and the on-chain trigger succeeds. -/
def envOk : PipeEnv := ⟨true, true, 3, 5, true, 9, true, 9, true, "0xhash"⟩

/-- Pipeline result of the successful cycle `envOk`. -/
def resultOk : PipeResult := pipelineTriggerInheritance envOk

/-- C1. The spec and the contract's own test suite
(`src/contracts/test/CryptoInheritance.js`, the three
`OwnableUnauthorizedAccount` tests) require every non-owner call to
`nominateInheritor`, `cancelNomination` and `triggerInheritance` to revert.
The deployed source has no `onlyOwner` modifier on any of the three, so a
non-owner (account `2`, owner being `1`) successfully nominates, cancels,
and triggers — the inheritance transfer included. This theorem evaluates the
code at those failing inputs. -/
theorem nonOwner_mutations_accepted :
    nominateInheritor 2 3 csFresh = .ok csNominated ∧
    cancelNomination 2 csNominated = .ok csFresh ∧
    (resOk (triggerInheritance 100 2 csNominated tokAcct2)).map
      (fun p => p.1.isTriggered) = some true ∧
    (resOk (triggerInheritance 100 2 csNominated tokAcct2)).map
      (fun p => p.2.balanceOf 3) = some 5 ∧
    (resOk (triggerInheritance 100 2 csNominated tokAcct2)).map
      (fun p => p.2.balanceOf 2) = some 0 :=
  ⟨rfl, rfl, rfl, rfl, rfl⟩

/-- C10: in every unpaused state — whatever the inheritor (including the
sentinel) and even after the inheritance was triggered — `cancelNomination`
succeeds for any caller, resets the inheritor to the sentinel, changes no
other field, and is idempotent. -/
theorem cancelNomination_idempotent_unconditional
    (sender sender2 : Addr) (cs : ContractState) (hp : cs.paused = false) :
    cancelNomination sender cs = .ok { cs with inheritor := 0 } ∧
    ({ cs with inheritor := 0 } : ContractState).owner = cs.owner ∧
    ({ cs with inheritor := 0 } : ContractState).isTriggered = cs.isTriggered ∧
    ({ cs with inheritor := 0 } : ContractState).paused = cs.paused ∧
    cancelNomination sender2 { cs with inheritor := 0 } =
      .ok { cs with inheritor := 0 } := by
  refine ⟨?_, rfl, rfl, rfl, ?_⟩ <;> simp [cancelNomination, hp]

/-- Witness for C10 at a triggered, nominee-less, unpaused state. -/
theorem cancelNomination_idempotent_witness :
    cancelNomination 2 csTriggeredNoNominee =
      .ok { csTriggeredNoNominee with inheritor := 0 } ∧
    ({ csTriggeredNoNominee with inheritor := 0 } : ContractState).owner =
      csTriggeredNoNominee.owner ∧
    ({ csTriggeredNoNominee with inheritor := 0 } : ContractState).isTriggered =
      csTriggeredNoNominee.isTriggered ∧
    ({ csTriggeredNoNominee with inheritor := 0 } : ContractState).paused =
      csTriggeredNoNominee.paused ∧
    cancelNomination 7 { csTriggeredNoNominee with inheritor := 0 } =
      .ok { csTriggeredNoNominee with inheritor := 0 } :=
  cancelNomination_idempotent_unconditional 2 7 csTriggeredNoNominee rfl

/-- C9: the address validator accepts both hex-letter cases but the
processing-status map is keyed by the exact request string, so while the
upper-case spelling's cycle is still `processing`, a notification for the
lower-case spelling of the same wallet is accepted with HTTP 200 and starts
a second concurrent cycle instead of being rejected with 409. -/
theorem caseSensitive_dedup_key :
    addrUpper ≠ addrLower ∧
    isValidEthereumAddress addrUpper = true ∧
    isValidEthereumAddress addrLower = true ∧
    (deathWebhook [] reqUpper).1.code = 200 ∧
    (deathWebhook [] reqUpper).1.success = true ∧
    mapGet mapAfterUpper addrUpper = some "processing" ∧
    (deathWebhook mapAfterUpper reqLower).1.code = 200 ∧
    (deathWebhook mapAfterUpper reqLower).1.success = true ∧
    (deathWebhook mapAfterUpper reqLower).2.2 = true ∧
    mapGet (deathWebhook mapAfterUpper reqLower).2.1 addrUpper =
      some "processing" ∧
    mapGet (deathWebhook mapAfterUpper reqLower).2.1 addrLower =
      some "processing" := by
  decide

/-- A string matching the address regex is nonempty (it has length 42). -/
lemma valid_addr_ne_empty {s : String} (h : isValidEthereumAddress s = true) :
    s ≠ "" := by
  intro he
  subst he
  simp [isValidEthereumAddress] at h

/-- C4: for any status map and any two well-formed notifications for the
same subject address whose entry is not currently `processing`, the first
notify is accepted with HTTP 200 `{success:true}` and marks the address
`processing`; the second notify, submitted while that entry is still
`processing`, is rejected with HTTP 409 `{success:false}`, schedules no
delayed execution and leaves the status map exactly as the first request
left it. -/
theorem webhook_dedup (m : StatusMap) (r1 r2 : WebhookReq) (addr : String)
    (h1 : r1.walletAddress = some addr) (h2 : r2.walletAddress = some addr)
    (hv : isValidEthereumAddress addr = true)
    (he1 : strPresent r1.eventType = true)
    (he2 : strPresent r2.eventType = true)
    (hnp : mapGet m addr ≠ some "processing") :
    (deathWebhook m r1).1.code = 200 ∧
    (deathWebhook m r1).1.success = true ∧
    mapGet (deathWebhook m r1).2.1 addr = some "processing" ∧
    deathWebhook (deathWebhook m r1).2.1 r2 =
      (⟨409, false,
        some "Death notification already being processed for this wallet",
        none⟩, (deathWebhook m r1).2.1, false) := by
  have hne : addr ≠ "" := valid_addr_ne_empty hv
  have hpa : strPresent (some addr) = true := by simp [strPresent, hne]
  have hfirst : deathWebhook m r1 =
      (⟨200, true, none, some 6000⟩, mapSet m addr "processing", true) := by
    simp [deathWebhook, h1, hpa, he1, hv, hnp]
  refine ⟨by rw [hfirst], by rw [hfirst], ?_, ?_⟩
  · rw [hfirst]; simp [mapGet, mapSet]
  · rw [hfirst]
    simp [deathWebhook, h2, hpa, he2, hv, mapGet, mapSet]

/-- Witness for C4: two concrete notifications for the upper-case address
against a map holding an unrelated entry. -/
theorem webhook_dedup_witness :
    (deathWebhook mapOther reqUpper).1.code = 200 ∧
    (deathWebhook mapOther reqUpper).1.success = true ∧
    mapGet (deathWebhook mapOther reqUpper).2.1 addrUpper =
      some "processing" ∧
    deathWebhook (deathWebhook mapOther reqUpper).2.1 reqUpper =
      (⟨409, false,
        some "Death notification already being processed for this wallet",
        none⟩, (deathWebhook mapOther reqUpper).2.1, false) :=
  webhook_dedup mapOther reqUpper reqUpper addrUpper rfl rfl (by decide)
    (by decide) (by decide) (by decide)

/-- Counterexample to C5 as stated: in a paused state with the sentinel
nominee, positive balance and ample allowance, `triggerInheritance` fails
with the pause error, not the "no inheritor" error, because the
`whenNotPaused` modifier runs before the inheritor check. -/
theorem trigger_noInheritor_counterexample :
    csPausedNoNominee.inheritor = 0 ∧
    tokAcct1.balanceOf 1 = 7 ∧
    tokAcct1.allowance 1 100 = 9 ∧
    resErr (triggerInheritance 100 1 csPausedNoNominee tokAcct1) =
      some CError.enforcedPause ∧
    CError.enforcedPause ≠ CError.noInheritor := by
  decide

/-- C5 (amended): in every unpaused, not-yet-triggered state whose nominee
is the sentinel zero address, `triggerInheritance` fails with the "no
inheritor" error for every caller and every token state — regardless of
balance and allowance — and, the call reverting, no tokens move. -/
theorem trigger_noInheritor (cA sender : Addr) (cs : ContractState)
    (t : TokenState) (h0 : cs.inheritor = 0) (hp : cs.paused = false)
    (ht : cs.isTriggered = false) :
    triggerInheritance cA sender cs t = .error .noInheritor := by
  simp [triggerInheritance, h0, hp, ht]

/-- Witness for C5 at a state with positive balance and ample allowance. -/
theorem trigger_noInheritor_witness :
    triggerInheritance 100 1 csNoNominee tokAcct1 = .error .noInheritor :=
  trigger_noInheritor 100 1 csNoNominee tokAcct1 rfl rfl rfl

/-- C7: while the contract is paused, `nominateInheritor`,
`cancelNomination` and `triggerInheritance` all fail with the pause error
(reverting, so no state change); a successful `pause` by the owner from an
unpaused state only sets the `paused` flag, a subsequent `unpause` by the
owner restores exactly the original state, and neither operation touches the
token balances. -/
theorem pause_gating_and_frame (cA sender inh : Addr) (s : ChainState) :
    (s.cs.paused = true →
      nominateInheritor sender inh s.cs = .error .enforcedPause ∧
      cancelNomination sender s.cs = .error .enforcedPause ∧
      triggerInheritance cA sender s.cs s.tok = .error .enforcedPause) ∧
    (s.cs.paused = false →
      pause s.cs.owner s.cs = .ok { s.cs with paused := true } ∧
      unpause s.cs.owner { s.cs with paused := true } = .ok s.cs) ∧
    (execOp cA (Op.doPause sender) s).tok = s.tok ∧
    (execOp cA (Op.doUnpause sender) s).tok = s.tok := by
  refine ⟨?_, ?_, ?_, ?_⟩
  · intro hp
    exact ⟨by simp [nominateInheritor, hp], by simp [cancelNomination, hp],
      by simp [triggerInheritance, hp]⟩
  · intro hp
    constructor
    · simp [pause, hp]
    · cases s with
      | mk cs tok =>
        cases cs with
        | mk o i tr pa =>
          simp at hp
          subst hp
          simp [unpause]
  · unfold execOp
    cases h : pause sender s.cs <;> simp [h]
  · unfold execOp
    cases h : unpause sender s.cs <;> simp [h]

/-- Witness for C7 at a paused state (gating conjunct) — the implication's
hypothesis is discharged at `paused = true`. -/
theorem pause_gating_witness :
    (chainNominatedPaused.cs.paused = true →
      nominateInheritor 2 3 chainNominatedPaused.cs = .error .enforcedPause ∧
      cancelNomination 2 chainNominatedPaused.cs = .error .enforcedPause ∧
      triggerInheritance 100 2 chainNominatedPaused.cs chainNominatedPaused.tok =
        .error .enforcedPause) ∧
    (chainNominatedPaused.cs.paused = false →
      pause chainNominatedPaused.cs.owner chainNominatedPaused.cs =
        .ok { chainNominatedPaused.cs with paused := true } ∧
      unpause chainNominatedPaused.cs.owner
          { chainNominatedPaused.cs with paused := true } =
        .ok chainNominatedPaused.cs) ∧
    (execOp 100 (Op.doPause 2) chainNominatedPaused).tok =
      chainNominatedPaused.tok ∧
    (execOp 100 (Op.doUnpause 2) chainNominatedPaused).tok =
      chainNominatedPaused.tok :=
  pause_gating_and_frame 100 2 3 chainNominatedPaused

/-- Counterexample to C2 as stated: when the caller is the nominee, the
trigger succeeds and sets the flag, but the ERC20 self-transfer nets to
zero, so the caller's balance stays at B = 5 instead of ending at 0. -/
theorem trigger_success_counterexample :
    csSelfNominee.paused = false ∧ csSelfNominee.isTriggered = false ∧
    csSelfNominee.inheritor = 2 ∧ (2 : Addr) ≠ 0 ∧
    tokAcct2.balanceOf 2 = 5 ∧ tokAcct2.allowance 2 100 = 5 ∧
    (resOk (triggerInheritance 100 2 csSelfNominee tokAcct2)).map
      (fun p => p.1.isTriggered) = some true ∧
    (resOk (triggerInheritance 100 2 csSelfNominee tokAcct2)).map
      (fun p => p.2.balanceOf 2) = some 5 ∧
    (5 : Nat) ≠ 0 := by
  decide

/-- C2 (amended): in every unpaused, not-yet-triggered state with a
non-sentinel nominee N distinct from the caller, if the caller holds
B > 0 tokens and has granted the contract an allowance of at least B, then
`triggerInheritance` succeeds, sets the triggered flag, moves exactly B
units from the caller to N (caller balance 0, N credited B), and touches no
other balance. (When the caller is N the call also succeeds but the
self-transfer leaves the balance at B.) -/
theorem trigger_success_postcondition (cA sender : Addr) (cs : ContractState)
    (t : TokenState) (hp : cs.paused = false) (ht : cs.isTriggered = false)
    (hN : cs.inheritor ≠ 0) (hsn : sender ≠ cs.inheritor)
    (hB : 0 < t.balanceOf sender)
    (hal : t.balanceOf sender ≤ t.allowance sender cA) :
    ∃ t', triggerInheritance cA sender cs t =
        .ok ({ cs with isTriggered := true }, t') ∧
      t'.balanceOf sender = 0 ∧
      t'.balanceOf cs.inheritor =
        t.balanceOf cs.inheritor + t.balanceOf sender ∧
      (∀ a, a ≠ sender → a ≠ cs.inheritor → t'.balanceOf a = t.balanceOf a) := by
  have hb0 : ¬ (t.balanceOf sender = 0) := by omega
  have h1 : ¬ (t.allowance sender cA < t.balanceOf sender) := by omega
  have h2 : ¬ (t.balanceOf sender < t.balanceOf sender) := by omega
  have hNs : cs.inheritor ≠ sender := Ne.symm hsn
  refine ⟨{ balanceOf := (fun a =>
              if a = cs.inheritor then
                (if cs.inheritor = sender then
                  t.balanceOf sender - t.balanceOf sender
                 else t.balanceOf cs.inheritor) + t.balanceOf sender
              else if a = sender then t.balanceOf sender - t.balanceOf sender
              else t.balanceOf a),
            allowance := (fun a b =>
              if a = sender ∧ b = cA then
                t.allowance sender cA - t.balanceOf sender
              else t.allowance a b) }, ?_, ?_, ?_, ?_⟩
  · simp [triggerInheritance, transferFrom, hp, ht, hN, hb0, h1, h2]
  · simp [hsn]
  · simp [hNs]
  · intro a ha1 ha2
    simp [ha1, ha2]

/-- Witness for C2: the non-owner, non-nominee account 2 triggers with
balance 5 and allowance 5; nominee 3 is credited 5 and account 2 ends at 0. -/
theorem trigger_success_witness :
    ∃ t', triggerInheritance 100 2 csNominated tokAcct2 =
        .ok ({ csNominated with isTriggered := true }, t') ∧
      t'.balanceOf 2 = 0 ∧
      t'.balanceOf csNominated.inheritor =
        tokAcct2.balanceOf csNominated.inheritor + tokAcct2.balanceOf 2 ∧
      (∀ a, a ≠ 2 → a ≠ csNominated.inheritor →
        t'.balanceOf a = tokAcct2.balanceOf a) :=
  trigger_success_postcondition 100 2 csNominated tokAcct2 rfl rfl
    (by decide) (by decide) (by decide) (by decide)

/-- A successful nomination does not change the triggered flag. -/
lemma nominate_preserves_triggered {sender inh : Addr}
    {cs cs' : ContractState}
    (h : nominateInheritor sender inh cs = .ok cs') :
    cs'.isTriggered = cs.isTriggered := by
  unfold nominateInheritor at h
  split at h
  · cases h
  · split at h
    · cases h
    · cases h; rfl

/-- A successful cancellation does not change the triggered flag. -/
lemma cancel_preserves_triggered {sender : Addr} {cs cs' : ContractState}
    (h : cancelNomination sender cs = .ok cs') :
    cs'.isTriggered = cs.isTriggered := by
  unfold cancelNomination at h
  split at h
  · cases h
  · cases h; rfl

/-- A successful pause does not change the triggered flag. -/
lemma pause_preserves_triggered {sender : Addr} {cs cs' : ContractState}
    (h : pause sender cs = .ok cs') : cs'.isTriggered = cs.isTriggered := by
  unfold pause at h
  split at h
  · cases h
  · split at h
    · cases h
    · cases h; rfl

/-- A successful unpause does not change the triggered flag. -/
lemma unpause_preserves_triggered {sender : Addr} {cs cs' : ContractState}
    (h : unpause sender cs = .ok cs') : cs'.isTriggered = cs.isTriggered := by
  unfold unpause at h
  split at h
  · cases h
  · split at h
    · cases h; rfl
    · cases h

/-- From an already-triggered state, `triggerInheritance` reverts: with the
pause error when paused (the `whenNotPaused` modifier runs first), otherwise
with the already-triggered error. -/
lemma trigger_after_triggered {cA sender : Addr} {cs : ContractState}
    {t : TokenState} (h : cs.isTriggered = true) :
    triggerInheritance cA sender cs t =
      .error (if cs.paused then CError.enforcedPause
              else CError.alreadyTriggered) := by
  unfold triggerInheritance
  by_cases hp : cs.paused <;> simp [hp, h]

/-- A successful trigger sets the triggered flag. -/
lemma trigger_ok_triggered {cA sender : Addr} {cs : ContractState}
    {t : TokenState} {p : ContractState × TokenState}
    (h : triggerInheritance cA sender cs t = .ok p) :
    p.1.isTriggered = true := by
  unfold triggerInheritance at h
  split at h
  · cases h
  · split at h
    · cases h
    · split at h
      · cases h
      · split at h
        · cases h
        · split at h
          · cases h
          · cases h; rfl

/-- No transaction can reset the triggered flag. -/
lemma execOp_triggered_mono (cA : Addr) (o : Op) (s : ChainState)
    (h : s.cs.isTriggered = true) :
    (execOp cA o s).cs.isTriggered = true := by
  cases o with
  | nominate sender inh =>
    cases hn : nominateInheritor sender inh s.cs with
    | ok cs' =>
      simp only [execOp, hn]
      rw [nominate_preserves_triggered hn]; exact h
    | error e => simpa [execOp, hn] using h
  | cancel sender =>
    cases hn : cancelNomination sender s.cs with
    | ok cs' =>
      simp only [execOp, hn]
      rw [cancel_preserves_triggered hn]; exact h
    | error e => simpa [execOp, hn] using h
  | trigger sender =>
    cases hn : triggerInheritance cA sender s.cs s.tok with
    | ok p =>
      simp only [execOp, hn]
      exact trigger_ok_triggered hn
    | error e => simpa [execOp, hn] using h
  | doPause sender =>
    cases hn : pause sender s.cs with
    | ok cs' =>
      simp only [execOp, hn]
      rw [pause_preserves_triggered hn]; exact h
    | error e => simpa [execOp, hn] using h
  | doUnpause sender =>
    cases hn : unpause sender s.cs with
    | ok cs' =>
      simp only [execOp, hn]
      rw [unpause_preserves_triggered hn]; exact h
    | error e => simpa [execOp, hn] using h
  | approve holder spender amount =>
    simpa [execOp] using h

/-- No sequence of transactions can reset the triggered flag. -/
lemma execOps_triggered_mono (cA : Addr) (ops : List Op) (s : ChainState)
    (h : s.cs.isTriggered = true) :
    (execOps cA ops s).cs.isTriggered = true := by
  induction ops generalizing s with
  | nil => simpa [execOps] using h
  | cons o rest ih =>
    have h1 := execOp_triggered_mono cA o s h
    simpa [execOps, List.foldl] using ih (execOp cA o s) h1

/-- C3 (amended): the triggered flag is monotonic — no transaction sequence
can reset it — and from a triggered state every further `triggerInheritance`
call reverts, moving no tokens and changing no state; the revert reason is
the "already triggered" condition whenever the contract is unpaused (when
it is paused, the pause check fires first and the pause error is reported
instead). -/
theorem triggered_monotone_exactly_once (cA : Addr) (s : ChainState)
    (ops : List Op) (sender : Addr) (h : s.cs.isTriggered = true) :
    (execOps cA ops s).cs.isTriggered = true ∧
    execOp cA (Op.trigger sender) s = s ∧
    (s.cs.paused = false →
      triggerInheritance cA sender s.cs s.tok = .error .alreadyTriggered) := by
  refine ⟨execOps_triggered_mono cA ops s h, ?_, ?_⟩
  · simp [execOp, trigger_after_triggered h]
  · intro hp
    rw [trigger_after_triggered h, hp]
    simp

/-- Witness for C3 after a nominate-and-cancel sequence from a triggered
state. -/
theorem triggered_monotone_witness :
    (execOps 100 [Op.nominate 2 4, Op.cancel 2] chainTriggered).cs.isTriggered
      = true ∧
    execOp 100 (Op.trigger 2) chainTriggered = chainTriggered ∧
    (chainTriggered.cs.paused = false →
      triggerInheritance 100 2 chainTriggered.cs chainTriggered.tok =
        .error .alreadyTriggered) :=
  triggered_monotone_exactly_once 100 chainTriggered
    [Op.nominate 2 4, Op.cancel 2] 2 rfl

/-- Counterexample to C3 as stated: after a successful trigger the owner
pauses; the next `triggerInheritance` call then fails with the pause error,
not the "already triggered" condition. -/
theorem alreadyTriggered_error_counterexample :
    csTriggeredPaused.isTriggered = true ∧
    resErr (triggerInheritance 100 1 csTriggeredPaused tokAcct1) =
      some CError.enforcedPause ∧
    CError.enforcedPause ≠ CError.alreadyTriggered := by
  decide

/-- C6: whenever a processing cycle reaches the allowance step (valid
address, readable non-sentinel inheritor, nonzero balance, signing
authority), the pipeline reads the allowance; if it already covers the
balance it submits no approval and proceeds to invoke the on-chain trigger;
if it is below the balance it submits an approval for exactly the full
balance, and — after the wait — if the freshly re-read allowance is still
below the balance the cycle fails with the allowance-insufficient error
without ever invoking the contract's trigger. -/
theorem allowance_bridge_protocol (env : PipeEnv)
    (hv : env.validAddr = true) (hg : env.getInheritorOk = true)
    (hi : env.inheritor ≠ 0) (hb : env.balance ≠ 0) (hs : env.canSign = true) :
    (env.balance ≤ env.allowance1 →
      (pipelineTriggerInheritance env).approvalSubmitted = false ∧
      (pipelineTriggerInheritance env).triggerInvoked = true) ∧
    (env.allowance1 < env.balance →
      (pipelineTriggerInheritance env).approvalSubmitted = true ∧
      (pipelineTriggerInheritance env).approvalAmount = env.balance ∧
      (env.approveOk = true → env.allowance2 < env.balance →
        (pipelineTriggerInheritance env).success = false ∧
        (pipelineTriggerInheritance env).triggerInvoked = false ∧
        (pipelineTriggerInheritance env).error =
          some "Allowance is still insufficient after approval attempt.")) := by
  constructor
  · intro hle
    have hnl : ¬ (env.allowance1 < env.balance) := not_lt.mpr hle
    by_cases htr : env.triggerOk <;>
      simp [pipelineTriggerInheritance, pipeFinalCall, hv, hg, hi, hb, hs,
        hnl, htr]
  · intro hlt
    refine ⟨?_, ?_, ?_⟩
    · by_cases hok : env.approveOk <;>
        by_cases h2 : env.allowance2 < env.balance <;>
        by_cases htr : env.triggerOk <;>
        simp [pipelineTriggerInheritance, pipeFinalCall, hv, hg, hi, hb, hs,
          hlt, hok, h2, htr]
    · by_cases hok : env.approveOk <;>
        by_cases h2 : env.allowance2 < env.balance <;>
        by_cases htr : env.triggerOk <;>
        simp [pipelineTriggerInheritance, pipeFinalCall, hv, hg, hi, hb, hs,
          hlt, hok, h2, htr]
    · intro hok h2
      simp [pipelineTriggerInheritance, hv, hg, hi, hb, hs, hlt, hok, h2]

/-- Witness for C6 at `envStillShort`: an approval for the full balance 5 is
submitted, and the cycle fails without invoking the trigger because the
re-read allowance 4 is still below 5. -/
theorem allowance_bridge_witness :
    (envStillShort.balance ≤ envStillShort.allowance1 →
      (pipelineTriggerInheritance envStillShort).approvalSubmitted = false ∧
      (pipelineTriggerInheritance envStillShort).triggerInvoked = true) ∧
    (envStillShort.allowance1 < envStillShort.balance →
      (pipelineTriggerInheritance envStillShort).approvalSubmitted = true ∧
      (pipelineTriggerInheritance envStillShort).approvalAmount =
        envStillShort.balance ∧
      (envStillShort.approveOk = true →
        envStillShort.allowance2 < envStillShort.balance →
        (pipelineTriggerInheritance envStillShort).success = false ∧
        (pipelineTriggerInheritance envStillShort).triggerInvoked = false ∧
        (pipelineTriggerInheritance envStillShort).error =
          some "Allowance is still insufficient after approval attempt.")) :=
  allowance_bridge_protocol envStillShort rfl rfl (by decide) (by decide) rfl

/-- Counterexample to C8 as stated: on a successful cycle the contract
service returns the token address, but the broadcast payload assembled by
`server.js` contains only the transaction hash and nominee address — no
`tokenAddress` field. -/
theorem completed_broadcast_counterexample :
    resultOk.success = true ∧
    resultOk.tokenAddress = some mockTokenAddress ∧
    "tokenAddress" ∉ (onTriggerOutcome [] addrUpper resultOk).2.keys ∧
    (onTriggerOutcome [] addrUpper resultOk).2.transactionHash =
      some "0xhash" := by
  decide

/-- C8 (amended): for every processing cycle whose on-chain trigger
succeeds, the pipeline sets the subject's status to `completed` and
broadcasts a `completed` payload carrying the transaction reference and the
nominee address — but not the token address, which the contract service
returns and the server drops. -/
theorem completed_broadcast (m : StatusMap) (addr : String) (r : PipeResult)
    (h : r.success = true) :
    mapGet (onTriggerOutcome m addr r).1 addr = some "completed" ∧
    (onTriggerOutcome m addr r).2.status = "completed" ∧
    "transactionHash" ∈ (onTriggerOutcome m addr r).2.keys ∧
    "nomineeAddress" ∈ (onTriggerOutcome m addr r).2.keys ∧
    (onTriggerOutcome m addr r).2.transactionHash = r.transactionHash ∧
    (onTriggerOutcome m addr r).2.nomineeAddress = r.nomineeAddress ∧
    "tokenAddress" ∉ (onTriggerOutcome m addr r).2.keys := by
  simp [onTriggerOutcome, h, mapGet, mapSet]

/-- Witness for C8 at the successful concrete cycle `resultOk`. -/
theorem completed_broadcast_witness :
    mapGet (onTriggerOutcome [] addrLower resultOk).1 addrLower =
      some "completed" ∧
    (onTriggerOutcome [] addrLower resultOk).2.status = "completed" ∧
    "transactionHash" ∈ (onTriggerOutcome [] addrLower resultOk).2.keys ∧
    "nomineeAddress" ∈ (onTriggerOutcome [] addrLower resultOk).2.keys ∧
    (onTriggerOutcome [] addrLower resultOk).2.transactionHash =
      resultOk.transactionHash ∧
    (onTriggerOutcome [] addrLower resultOk).2.nomineeAddress =
      resultOk.nomineeAddress ∧
    "tokenAddress" ∉ (onTriggerOutcome [] addrLower resultOk).2.keys :=
  completed_broadcast [] addrLower resultOk (by decide)
